import Mathlib

/-!
Shallow embedding of the Clarity AI application:
  * `src/server/server.js` — the Express backend: in-memory rate limiter,
    input validation, upstream (Groq) call outcome mapping, security headers,
    and routing (GET /, POST /api/clarify, 404 fallback).
  * `src/client/src/App.jsx` — the frontend request controller:
    `requestReducer`, `handleClarify` (with AbortController supersession),
    and the feedback toggles.

JavaScript strings are modelled as `List Char` (one element per UTF-16 unit
for the inputs considered); `String.prototype.trim` is modelled by `jsTrim`,
which strips the JS whitespace class (restricted to its ASCII members plus
NBSP) from both ends.  JavaScript values that can appear in a JSON request
body are modelled by `JsValue`, with JS truthiness (`!x`) as `jsFalsy`.
-/

namespace ClarityAI

/-- JS strings, one list element per UTF-16 code unit; `.length` is
`List.length`. -/
abbrev JsStr := List Char

/-- The JS whitespace class used by `String.prototype.trim`, restricted to
its ASCII members plus NBSP (the full class also has rarer Unicode spaces,
irrelevant to the inputs considered). -/
def jsIsWhitespace (c : Char) : Bool :=
  c = ' ' || c = '\t' || c = '\n' || c = '\r' || c = '\x0b' || c = '\x0c' || c = '\xa0'

/-- `String.prototype.trim`: drop whitespace from both ends. -/
def jsTrim (s : JsStr) : JsStr :=
  ((s.dropWhile jsIsWhitespace).reverse.dropWhile jsIsWhitespace).reverse

/-- A JavaScript value as it may appear at `req.body.text` after JSON
parsing (plus `undef` for an absent field). -/
inductive JsValue
  | undef
  | nullv
  | boolv (b : Bool)
  | numv (n : Int)
  | strv (s : JsStr)
  | objv
deriving DecidableEq

/-- JS truthiness test `!x`: `undefined`, `null`, `false`, `0` and the empty
string are falsy (`NaN` is not modelled; numbers are `Int`). -/
def jsFalsy : JsValue → Bool
  | .undef => true
  | .nullv => true
  | .boolv b => !b
  | .numv n => n = 0
  | .strv s => s.isEmpty
  | .objv => false

/-- `typeof x === 'string'`. -/
def jsIsString : JsValue → Bool
  | .strv _ => true
  | _ => false

-- ── Constants (server.js lines 8–26) ────────────────────────────────────────

def MAX_INPUT_LENGTH : Nat := 5000
def RATE_WINDOW_MS : Nat := 60000
def RATE_MAX_REQS : Nat := 10

-- ── Rate limiter (server.js `isRateLimited`, lines 29–42) ───────────────────

structure RateEntry where
  count : Nat
  resetAt : Nat
deriving DecidableEq

/-- The `rateLimitMap` (`ip → { count, resetAt }`), modelled as a function. -/
def RateMap := String → Option RateEntry

def RateMap.set (m : RateMap) (ip : String) (e : RateEntry) : RateMap :=
  fun k => if k = ip then some e else m k

/-- `isRateLimited(ip)` at time `now`: on a fresh or expired window, store
`{count := 1, resetAt := now + RATE_WINDOW_MS}` and admit; otherwise
increment the count (the mutation happens before the check) and reject
exactly when the post-increment count exceeds `RATE_MAX_REQS`. -/
def isRateLimited (m : RateMap) (ip : String) (now : Nat) : Bool × RateMap :=
  match m ip with
  | none => (false, m.set ip ⟨1, now + RATE_WINDOW_MS⟩)
  | some entry =>
    if entry.resetAt ≤ now then
      (false, m.set ip ⟨1, now + RATE_WINDOW_MS⟩)
    else
      let c := entry.count + 1
      (decide (RATE_MAX_REQS < c), m.set ip ⟨c, entry.resetAt⟩)

/-- Run a sequence of requests from one client through the rate limiter,
threading the map; returns the per-request limited/admitted bits. -/
def runRated (m : RateMap) (ip : String) : List Nat → List Bool
  | [] => []
  | t :: ts =>
    let r := isRateLimited m ip t
    r.1 :: runRated r.2 ip ts

-- ── Responses and headers ───────────────────────────────────────────────────

/-- A response body: `res.send` text, `res.json({error})`, or
`res.json({clarification})`. -/
inductive Body
  | text (s : String)
  | errorJson (msg : String)
  | clarificationJson (s : JsStr)
deriving DecidableEq

structure Response where
  status : Nat
  headers : List (String × String)
  body : Body
deriving DecidableEq

def getHeader (r : Response) (name : String) : Option String :=
  (r.headers.find? (fun p => p.1 = name)).map (·.2)

/-- The four headers set by the security middleware (server.js lines
119–132) on every response. -/
def securityHeaders : List (String × String) :=
  [("X-Content-Type-Options", "nosniff"),
   ("X-Frame-Options", "DENY"),
   ("Referrer-Policy", "strict-origin-when-cross-origin"),
   ("Strict-Transport-Security", "max-age=31536000; includeSubDomains")]

/-- Headers on every `/api/clarify` response produced after the rate check:
the middleware headers plus `Cache-Control: no-store` (set at line 162,
after the rate-limit early return). -/
def clarifyHeaders : List (String × String) :=
  securityHeaders ++ [("Cache-Control", "no-store")]

-- ── Input validation (server.js lines 165–181) ──────────────────────────────

inductive Validation
  | missing            -- `!text || typeof text !== 'string'`
  | empty              -- trimmed to nothing
  | tooLong            -- trimmed length over MAX_INPUT_LENGTH
  | ok (trimmed : JsStr)
deriving DecidableEq

/-- The validation ladder on `req.body.text`.  Note the empty string is
falsy in JS, so it takes the `missing` branch, not `empty`. -/
def validateText (text : JsValue) : Validation :=
  if jsFalsy text || !jsIsString text then .missing
  else
    match text with
    | .strv s =>
      let trimmed := jsTrim s
      if trimmed.isEmpty then .empty
      else if MAX_INPUT_LENGTH < trimmed.length then .tooLong
      else .ok trimmed
    | _ => .missing

-- ── Upstream completion shape (Groq) ────────────────────────────────────────

structure Message where
  content : Option JsStr
deriving DecidableEq

structure Choice where
  message : Option Message
deriving DecidableEq

structure Completion where
  choices : List Choice
deriving DecidableEq

/-- `completion.choices[0]?.message?.content ?? ''` (server.js line 205). -/
def extractClarification (c : Completion) : JsStr :=
  match c.choices.head? with
  | none => []
  | some ch =>
    match ch.message with
    | none => []
    | some m => m.content.getD []

structure UpstreamError where
  status : Option Nat
  message : String
  stack : String
deriving DecidableEq

inductive UpstreamOutcome
  | success (completion : Completion)
  | failure (err : UpstreamError)
deriving DecidableEq

-- ── Route responses (server.js lines 136–232) ───────────────────────────────

/-- Success: `res.json({ clarification: clarification.trim() })` (line 206). -/
def successResponse (c : Completion) : Response :=
  ⟨200, clarifyHeaders, .clarificationJson (jsTrim (extractClarification c))⟩

/-- The catch block (lines 208–225): upstream 429 maps to a generic busy
429, everything else to a generic 500; `error.message` / `error.stack` only
reach `console.error`, never the response. -/
def upstreamErrorResponse (e : UpstreamError) : Response :=
  if e.status = some 429 then
    ⟨429, clarifyHeaders, .errorJson "System busy. Please try again in a moment."⟩
  else
    ⟨500, clarifyHeaders, .errorJson "Failed to clarify text"⟩

/-- The part of the handler after validation succeeded: the upstream call
and the mapping of its outcome. -/
def clarifyAfterValidation (_trimmed : JsStr) (u : UpstreamOutcome) : Response :=
  match u with
  | .success c => successResponse c
  | .failure e => upstreamErrorResponse e

def lengthErrorMessage : String :=
  "Input exceeds maximum allowed length of " ++ toString MAX_INPUT_LENGTH ++ " characters"

/-- The `/api/clarify` handler after the rate-limit check admitted the
request (lines 162–225). -/
def clarifyAfterRate (text : JsValue) (u : UpstreamOutcome) : Response :=
  match validateText text with
  | .missing => ⟨400, clarifyHeaders, .errorJson "Text input is required"⟩
  | .empty => ⟨400, clarifyHeaders, .errorJson "Text input must not be empty"⟩
  | .tooLong => ⟨400, clarifyHeaders, .errorJson lengthErrorMessage⟩
  | .ok trimmed => clarifyAfterValidation trimmed u

/-- The early rate-limited response (lines 150–154): 429, `Retry-After`
`RATE_WINDOW_MS / 1000`, and no `Cache-Control` (that header is set only
after this return). -/
def rateLimitedResponse : Response :=
  ⟨429, securityHeaders ++ [("Retry-After", toString (RATE_WINDOW_MS / 1000))],
   .errorJson "Too many requests. Please wait a moment and try again."⟩

/-- The whole `/api/clarify` handler, given the rate-check verdict. -/
def clarifyResponse (limited : Bool) (text : JsValue) (u : UpstreamOutcome) : Response :=
  if limited then rateLimitedResponse else clarifyAfterRate text u

def rootResponse : Response :=
  ⟨200, securityHeaders, .text "Clarity AI backend running"⟩

def notFoundResponse : Response :=
  ⟨404, securityHeaders, .errorJson "Not found"⟩

inductive Method
  | get
  | post
deriving DecidableEq

structure Request where
  method : Method
  path : String
  textField : JsValue   -- `req.body.text` after JSON parsing
  ip : String
deriving DecidableEq

/-- Routing: middleware-applied headers on every route; `POST /api/clarify`
runs the rate check against the shared map and threads the updated map. -/
def handleRequest (m : RateMap) (now : Nat) (r : Request) (u : UpstreamOutcome) :
    Response × RateMap :=
  if r.method = .get ∧ r.path = "/" then (rootResponse, m)
  else if r.method = .post ∧ r.path = "/api/clarify" then
    let lim := isRateLimited m r.ip now
    (clarifyResponse lim.1 r.textField u, lim.2)
  else (notFoundResponse, m)

-- ── Frontend request controller (App.jsx) ───────────────────────────────────

inductive Feedback
  | up
  | down
deriving DecidableEq

/-- The reducer state (App.jsx lines 35–41). -/
structure RequestState where
  loading : Bool
  output : JsStr
  error : JsStr
  copied : Bool
  feedback : Option Feedback
deriving DecidableEq

def initialRequestState : RequestState :=
  ⟨false, [], [], false, none⟩

/-- Reducer actions (the inductive is closed, so the reducer's `default`
branch, which returns the state unchanged, is unreachable). -/
inductive Action
  | start
  | success (payload : JsStr)
  | error (payload : JsStr)
  | setCopied (b : Bool)
  | setFeedback (f : Option Feedback)
deriving DecidableEq

/-- `requestReducer` (App.jsx lines 43–59). -/
def requestReducer (state : RequestState) (action : Action) : RequestState :=
  match action with
  | .start =>
    { state with loading := true, output := [], error := [], feedback := none, copied := false }
  | .success p => { state with loading := false, output := p }
  | .error p => { state with loading := false, error := p }
  | .setCopied b => { state with copied := b }
  | .setFeedback f => { state with feedback := f }

/-- The controller's imperative context: the reducer state, the identity of
the `AbortController` currently held in `abortRef` (requests are numbered by
issue order), and the next fresh number.  A request whose number is no
longer in `abortRef` has been aborted by a later `handleClarify`. -/
structure Controller where
  req : RequestState
  abortRef : Option Nat
  nextId : Nat
deriving DecidableEq

/-- `handleClarify` (App.jsx lines 105–144) up to its suspension point:
guard on the `loading` value the callback closed over at its creating
render (`obsLoading` — under two clicks in the same tick both callbacks
observe the pre-`START` value), guard on the trimmed input, abort any
previous in-flight request by overwriting `abortRef` with a fresh
controller, dispatch `START`, and issue one fetch carrying the trimmed
text.  Returns the new context and the issued call `(id, body text)`, or
`none` when no call is made. -/
def handleClarify (c : Controller) (obsLoading : Bool) (input : JsStr) :
    Controller × Option (Nat × JsStr) :=
  if obsLoading then (c, none)
  else
    let trimmed := jsTrim input
    if trimmed.isEmpty then (c, none)
    else
      (⟨requestReducer c.req .start, some c.nextId, c.nextId + 1⟩,
       some (c.nextId, trimmed))

/-- How the fetch for one request settles. -/
inductive FetchOutcome
  | ok (clarification : JsStr)               -- response.ok, parsed body
  | httpError (status : Nat) (errMsg : JsStr) -- non-ok status, data.error
  | networkError (msg : JsStr)               -- fetch/json rejection message
deriving DecidableEq

/-- The dispatch `handleClarify` performs when its fetch settles
un-aborted (App.jsx lines 131–142): non-ok 429 becomes the fixed busy
message, other non-ok statuses surface `data.error || 'Unable to process
request.'`, rejections surface `err.message`. -/
def fetchAction (out : FetchOutcome) : Action :=
  match out with
  | .ok s => .success s
  | .httpError st msg =>
    if st = 429 then .error ("System busy. Please try again in a moment.".data)
    else .error (if msg.isEmpty then "Unable to process request.".data else msg)
  | .networkError msg => .error msg

/-- Settling of request `id`: if `abortRef` still holds its controller the
outcome is dispatched; otherwise a later `handleClarify` called
`abort()` on it, the awaited fetch rejects with `AbortError`, and the
catch returns without any dispatch (App.jsx line 141). -/
def resolveStep (c : Controller) (id : Nat) (out : FetchOutcome) : Controller :=
  if c.abortRef = some id then { c with req := requestReducer c.req (fetchAction out) }
  else c

/-- `handleThumbsUp` / `handleThumbsDown` (App.jsx lines 171–177): dispatch
`SET_FEEDBACK` with `null` when `v` is already active, else with `v`. -/
def handleThumb (s : RequestState) (v : Feedback) : RequestState :=
  requestReducer s (.setFeedback (if s.feedback = some v then none else some v))

-- ── Theorems ────────────────────────────────────────────────────────────────

/-- C8: for every controller state and every input, invoking `handleClarify`
when the observed `loading` flag is set, or when the input trims to nothing,
leaves the state unchanged and issues no network call. -/
theorem submit_noop_when_loading_or_blank (c : Controller) (obsLoading : Bool)
    (input : JsStr) (h : obsLoading = true ∨ jsTrim input = []) :
    handleClarify c obsLoading input = (c, none) := by
  rcases h with h | h <;> simp [handleClarify, h]

theorem submit_noop_witness :
    handleClarify ⟨initialRequestState, none, 0⟩ true "hello".data
      = (⟨initialRequestState, none, 0⟩, none) :=
  submit_noop_when_loading_or_blank _ _ _ (Or.inl rfl)

/-- C9: the feedback toggle is last-write-wins and self-inverse: toggling
the currently active value clears feedback, toggling any other value sets
it; hence toggling `v` twice restores the start (none when it was not `v`),
and toggling `v` then `w ≠ v` always leaves `w` active. -/
theorem feedback_toggle (s : RequestState) (v : Feedback) :
    (handleThumb s v).feedback = (if s.feedback = some v then none else some v)
    ∧ (handleThumb (handleThumb s v) v).feedback
        = (if s.feedback = some v then some v else none)
    ∧ ∀ w, w ≠ v → (handleThumb (handleThumb s v) w).feedback = some w := by
  refine ⟨by simp [handleThumb, requestReducer], ?_, ?_⟩
  · by_cases h : s.feedback = some v <;> simp [handleThumb, requestReducer, h]
  · intro w hw
    by_cases h : s.feedback = some v <;>
      simp [handleThumb, requestReducer, h, Ne.symm hw]

theorem feedback_toggle_witness :
    (handleThumb (handleThumb initialRequestState .up) .down).feedback
      = some .down :=
  (feedback_toggle initialRequestState .up).2.2 .down (by decide)

/-- C5: an upstream failure with status 429 yields the fixed generic busy
429; any other failure yields the fixed generic 500; the response is a
function of the status alone, so `error.message` and `error.stack` never
influence (let alone appear in) the body. -/
theorem upstream_error_sanitised (e : UpstreamError) :
    (e.status = some 429 →
      upstreamErrorResponse e =
        ⟨429, clarifyHeaders, .errorJson "System busy. Please try again in a moment."⟩)
    ∧ (e.status ≠ some 429 →
      upstreamErrorResponse e =
        ⟨500, clarifyHeaders, .errorJson "Failed to clarify text"⟩)
    ∧ ∀ msg stack, upstreamErrorResponse ⟨e.status, msg, stack⟩ = upstreamErrorResponse e := by
  refine ⟨fun h => by simp [upstreamErrorResponse, h],
          fun h => by simp [upstreamErrorResponse, h], fun msg stack => ?_⟩
  by_cases h : e.status = some 429 <;> simp [upstreamErrorResponse, h]

theorem upstream_error_sanitised_witness :
    upstreamErrorResponse ⟨some 429, "connection reset by groq", "at node:internal"⟩
      = ⟨429, clarifyHeaders, .errorJson "System busy. Please try again in a moment."⟩ :=
  (upstream_error_sanitised ⟨some 429, "connection reset by groq", "at node:internal"⟩).1 rfl

/-- C6: on upstream success the 200 body's clarification equals the
returned string with both ends trimmed and no other transformation; in
particular two-space padding around a sentence is stripped. -/
theorem clarification_is_trimmed_upstream_text (t s : JsStr) (rest : List Choice) :
    clarifyAfterValidation t (.success ⟨⟨some ⟨some s⟩⟩ :: rest⟩)
      = ⟨200, clarifyHeaders, .clarificationJson (jsTrim s)⟩
    ∧ jsTrim "  A clear sentence.  ".data = "A clear sentence.".data :=
  ⟨rfl, by decide⟩

/-- C10: a successful completion with no choices, a choice with no message,
or a message with no content still yields a 200 whose clarification is the
empty string — never an error outcome. -/
theorem contentless_completion_yields_empty_200 (t : JsStr) :
    clarifyAfterValidation t (.success ⟨[]⟩)
      = ⟨200, clarifyHeaders, .clarificationJson []⟩
    ∧ (∀ rest, clarifyAfterValidation t (.success ⟨⟨none⟩ :: rest⟩)
        = ⟨200, clarifyHeaders, .clarificationJson []⟩)
    ∧ (∀ rest, clarifyAfterValidation t (.success ⟨⟨some ⟨none⟩⟩ :: rest⟩)
        = ⟨200, clarifyHeaders, .clarificationJson []⟩) :=
  ⟨rfl, fun _ => rfl, fun _ => rfl⟩

/-- C2 counterexample: a `text` field that is present and is a string —
the empty string — nevertheless produces the missing-input message
`Text input is required`, because the empty string is falsy in JS. -/
theorem empty_string_text_gets_missing_message :
    clarifyResponse false (.strv []) (.success ⟨[]⟩)
      = ⟨400, clarifyHeaders, .errorJson "Text input is required"⟩ := rfl

/-- C2 amended: for a `text` field that is a NON-empty string the
missing-input 400 is never produced, and when such a string trims to
nothing the empty-input message is returned; the empty string itself falls
into the missing-input branch. -/
theorem nonempty_string_never_missing_message (s : JsStr) (u : UpstreamOutcome)
    (h : s ≠ []) :
    (clarifyResponse false (.strv s) u).body ≠ .errorJson "Text input is required"
    ∧ (jsTrim s = [] →
        clarifyResponse false (.strv s) u
          = ⟨400, clarifyHeaders, .errorJson "Text input must not be empty"⟩) := by
  have hne : (s.isEmpty : Bool) = false := by simpa [List.isEmpty_iff] using h
  have hv : validateText (.strv s)
      = if (jsTrim s).isEmpty then .empty
        else if MAX_INPUT_LENGTH < (jsTrim s).length then .tooLong
        else .ok (jsTrim s) := by
    simp [validateText, jsFalsy, jsIsString, hne]
  have hc : clarifyResponse false (.strv s) u = clarifyAfterRate (.strv s) u := by
    simp [clarifyResponse]
  constructor
  · rw [hc]
    unfold clarifyAfterRate
    rw [hv]
    split_ifs with he hl
    · show Body.errorJson "Text input must not be empty"
        ≠ Body.errorJson "Text input is required"
      decide
    · show Body.errorJson lengthErrorMessage ≠ Body.errorJson "Text input is required"
      decide
    · cases u with
      | success c => simp [clarifyAfterValidation, successResponse]
      | failure e =>
        by_cases h429 : e.status = some 429 <;>
          simp [clarifyAfterValidation, upstreamErrorResponse, h429]
  · intro htrim
    rw [hc]
    unfold clarifyAfterRate
    rw [hv]
    simp [htrim]

theorem nonempty_string_witness :
    clarifyResponse false (.strv " ".data) (.success ⟨[]⟩)
      = ⟨400, clarifyHeaders, .errorJson "Text input must not be empty"⟩ :=
  (nonempty_string_never_missing_message " ".data (.success ⟨[]⟩) (by decide)).2 (by decide)

/-- C4: an admitted request whose trimmed text is longer than
`MAX_INPUT_LENGTH` gets the 400 length response; at exactly the maximum the
input passes validation and the response is never the length error. -/
theorem length_limit (s : JsStr) (u : UpstreamOutcome) :
    (MAX_INPUT_LENGTH < (jsTrim s).length →
      clarifyResponse false (.strv s) u
        = ⟨400, clarifyHeaders, .errorJson lengthErrorMessage⟩)
    ∧ ((jsTrim s).length = MAX_INPUT_LENGTH →
      validateText (.strv s) = .ok (jsTrim s)
      ∧ (clarifyResponse false (.strv s) u).body ≠ .errorJson lengthErrorMessage) := by
  have hc : clarifyResponse false (.strv s) u = clarifyAfterRate (.strv s) u := by
    simp [clarifyResponse]
  constructor
  · intro hl
    have hs : (s.isEmpty : Bool) = false := by
      rcases s with _ | _
      · simp [jsTrim] at hl
      · rfl
    have ht : ((jsTrim s).isEmpty : Bool) = false := by
      rcases hempty : jsTrim s with _ | _
      · rw [hempty] at hl; simp at hl
      · rfl
    rw [hc]
    simp [clarifyAfterRate, validateText, jsFalsy, jsIsString, hs, ht, hl]
  · intro hl
    have hs : (s.isEmpty : Bool) = false := by
      rcases s with _ | _
      · exact absurd hl (by decide)
      · rfl
    have ht : ((jsTrim s).isEmpty : Bool) = false := by
      rcases hempty : jsTrim s with _ | _
      · rw [hempty] at hl; exact absurd hl (by decide)
      · rfl
    have hnl : ¬ MAX_INPUT_LENGTH < (jsTrim s).length := by omega
    have hv : validateText (.strv s) = .ok (jsTrim s) := by
      simp [validateText, jsFalsy, jsIsString, hs, ht, hnl]
    refine ⟨hv, ?_⟩
    rw [hc]
    unfold clarifyAfterRate
    rw [hv]
    cases u with
    | success c => simp [clarifyAfterValidation, successResponse]
    | failure e =>
      by_cases h429 : e.status = some 429 <;>
        simp [clarifyAfterValidation, upstreamErrorResponse, h429] <;> decide

/-- A run of letters is untouched by `jsTrim` (used to evaluate the length
witness without reducing a 5000-step computation in the kernel). -/
theorem jsTrim_replicate_a (n : Nat) :
    jsTrim (List.replicate n 'a') = List.replicate n 'a' := by
  have hdrop : ∀ m : Nat,
      (List.replicate m 'a').dropWhile jsIsWhitespace = List.replicate m 'a' := by
    intro m
    cases m with
    | zero => rfl
    | succ k => simp [List.replicate_succ, List.dropWhile_cons, jsIsWhitespace]
  unfold jsTrim
  rw [hdrop, List.reverse_replicate, hdrop, List.reverse_replicate]

theorem length_limit_witness :
    clarifyResponse false (.strv (List.replicate 5001 'a')) (.success ⟨[]⟩)
      = ⟨400, clarifyHeaders, .errorJson lengthErrorMessage⟩
    ∧ validateText (.strv (List.replicate 5000 'a')) = .ok (List.replicate 5000 'a') := by
  constructor
  · exact (length_limit (List.replicate 5001 'a') (.success ⟨[]⟩)).1
      (by rw [jsTrim_replicate_a, List.length_replicate]; decide)
  · have h := ((length_limit (List.replicate 5000 'a') (.success ⟨[]⟩)).2
      (by rw [jsTrim_replicate_a, List.length_replicate]; decide)).1
    rwa [jsTrim_replicate_a] at h

/-- Every branch of the admitted `/api/clarify` handler carries exactly the
post-rate-check header set. -/
theorem clarifyAfterRate_headers (tf : JsValue) (u : UpstreamOutcome) :
    (clarifyAfterRate tf u).headers = clarifyHeaders := by
  unfold clarifyAfterRate
  cases validateText tf with
  | missing => rfl
  | empty => rfl
  | tooLong => rfl
  | ok t =>
    cases u with
    | success c => rfl
    | failure e =>
      by_cases h429 : e.status = some 429 <;> simp [clarifyAfterValidation,
        upstreamErrorResponse, h429]

/-- C3 counterexample: the rate-limited 429 response — produced by a client
whose counter already reached the ceiling inside the current window — does
not carry the `Cache-Control: no-store` header (it is set only after the
rate-limit early return). -/
theorem rate_limited_response_lacks_no_store :
    (handleRequest (RateMap.set (fun _ => none) "1.2.3.4" ⟨10, 60000⟩) 5
        ⟨.post, "/api/clarify", .strv "hi".data, "1.2.3.4"⟩ (.success ⟨[]⟩)).1.status = 429
    ∧ getHeader (handleRequest (RateMap.set (fun _ => none) "1.2.3.4" ⟨10, 60000⟩) 5
        ⟨.post, "/api/clarify", .strv "hi".data, "1.2.3.4"⟩ (.success ⟨[]⟩)).1
        "Cache-Control" = none := by
  constructor <;> rfl

/-- C3 amended: the four hardening headers are on every response of every
route; the `Cache-Control: no-store` directive is on every `/api/clarify`
response produced after the rate check, but not on the rate-limited 429,
GET /, or the 404 response. -/
theorem headers_on_every_response (m : RateMap) (now : Nat) (r : Request)
    (u : UpstreamOutcome) (tf : JsValue) :
    (∀ p ∈ securityHeaders, p ∈ (handleRequest m now r u).1.headers)
    ∧ getHeader (clarifyAfterRate tf u) "Cache-Control" = some "no-store"
    ∧ getHeader rateLimitedResponse "Cache-Control" = none
    ∧ getHeader rootResponse "Cache-Control" = none
    ∧ getHeader notFoundResponse "Cache-Control" = none := by
  refine ⟨?_, ?_, rfl, rfl, rfl⟩
  · intro p hp
    unfold handleRequest
    split_ifs with h1 h2
    · exact hp
    · dsimp only
      unfold clarifyResponse
      split_ifs with hlim
      · exact List.mem_append_left _ hp
      · rw [clarifyAfterRate_headers]
        exact List.mem_append_left _ hp
    · exact hp
  · have hh : getHeader (clarifyAfterRate tf u) "Cache-Control"
        = ((clarifyHeaders.find? (fun p => p.1 = "Cache-Control")).map (·.2)) := by
      unfold getHeader
      rw [clarifyAfterRate_headers]
    rw [hh]
    rfl

theorem headers_on_every_response_witness :
    ("X-Frame-Options", "DENY")
      ∈ (handleRequest (fun _ => none) 0 ⟨.get, "/", .undef, "203.0.113.9"⟩
          (.success ⟨[]⟩)).1.headers :=
  (headers_on_every_response (fun _ => none) 0 ⟨.get, "/", .undef, "203.0.113.9"⟩
    (.success ⟨[]⟩) .undef).1 _ (by decide)

/-- Inside an open window whose entry holds count `c`, the `i`-th further
request (0-based) is limited exactly when `c + 1 + i` exceeds the ceiling. -/
theorem runRated_active (ip : String) (r : Nat) :
    ∀ (ts : List Nat) (m : RateMap) (c : Nat),
      m ip = some ⟨c, r⟩ → (∀ t ∈ ts, t < r) →
      runRated m ip ts
        = (List.range ts.length).map (fun i => decide (RATE_MAX_REQS < c + 1 + i)) := by
  intro ts
  induction ts with
  | nil => intro m c hm hts; rfl
  | cons t ts ih =>
    intro m c hm hts
    have ht : t < r := hts t (List.mem_cons_self _ _)
    have hstep : isRateLimited m ip t
        = (decide (RATE_MAX_REQS < c + 1), m.set ip ⟨c + 1, r⟩) := by
      simp only [isRateLimited, hm]
      rw [if_neg (by omega)]
    have hm' : (m.set ip ⟨c + 1, r⟩) ip = some ⟨c + 1, r⟩ := by simp [RateMap.set]
    have htail := ih (m.set ip ⟨c + 1, r⟩) (c + 1) hm'
      (fun t' ht' => hts t' (List.mem_cons_of_mem _ ht'))
    show (isRateLimited m ip t).1 :: runRated (isRateLimited m ip t).2 ip ts = _
    rw [hstep]
    dsimp only
    rw [htail, List.length_cons, List.range_succ_eq_map, List.map_cons, List.map_map]
    refine congrArg₂ _ (by norm_num) ?_
    refine List.map_congr_left fun i _ => ?_
    simp only [Function.comp_apply, decide_eq_decide]
    omega

/-- C1: starting a fresh window, the first request and the next nine inside
the window are admitted and every request from the eleventh on is limited
(`decide (RATE_MAX_REQS ≤ i)` at 0-based position `i`); a limited request is
answered with the fixed 429 response — independent of any upstream outcome,
so the provider is never consulted — carrying `Retry-After: 60`. -/
theorem rate_window_admits_ten (m : RateMap) (ip : String) (t0 : Nat) (ts : List Nat)
    (hm : m ip = none) (hts : ∀ t ∈ ts, t < t0 + RATE_WINDOW_MS) :
    runRated m ip (t0 :: ts)
      = (List.range (ts.length + 1)).map (fun i => decide (RATE_MAX_REQS ≤ i))
    ∧ (∀ text u, clarifyResponse true text u = rateLimitedResponse)
    ∧ rateLimitedResponse.status = 429
    ∧ getHeader rateLimitedResponse "Retry-After" = some "60" := by
  refine ⟨?_, fun text u => rfl, rfl, rfl⟩
  have hstep : isRateLimited m ip t0 = (false, m.set ip ⟨1, t0 + RATE_WINDOW_MS⟩) := by
    simp only [isRateLimited, hm]
  have hm' : (m.set ip ⟨1, t0 + RATE_WINDOW_MS⟩) ip = some ⟨1, t0 + RATE_WINDOW_MS⟩ := by
    simp [RateMap.set]
  show (isRateLimited m ip t0).1 :: runRated (isRateLimited m ip t0).2 ip ts = _
  rw [hstep]
  dsimp only
  rw [runRated_active ip (t0 + RATE_WINDOW_MS) ts _ 1 hm' hts,
    List.range_succ_eq_map, List.map_cons, List.map_map]
  refine congrArg₂ _ (by decide) ?_
  refine List.map_congr_left fun i _ => ?_
  simp only [Function.comp_apply, decide_eq_decide]
  omega

theorem rate_window_admits_ten_witness :
    runRated (fun _ => none) "1.2.3.4" [0, 1, 2, 3, 4, 5, 6, 7, 8, 9, 10]
      = [false, false, false, false, false, false, false, false, false, false, true] := by
  have h := (rate_window_admits_ten (fun _ => none) "1.2.3.4" 0
    [1, 2, 3, 4, 5, 6, 7, 8, 9, 10] rfl (by decide)).1
  rw [h]
  decide

/-- C7: two `handleClarify` invocations in rapid succession (both created
before the first `START` re-render, so both observe `loading = false`) issue
two fetches with distinct controllers; the first, superseded and aborted,
resolves to a no-op whatever its outcome and in whatever order the two
fetches settle, and the single visible final state is exactly the second
call's outcome. -/
theorem rapid_double_submit (c0 : Controller) (in1 in2 : JsStr)
    (out1 out2 : FetchOutcome) (h1 : jsTrim in1 ≠ []) (h2 : jsTrim in2 ≠ []) :
    (handleClarify c0 false in1).2 = some (c0.nextId, jsTrim in1)
    ∧ (handleClarify (handleClarify c0 false in1).1 false in2).2
        = some (c0.nextId + 1, jsTrim in2)
    ∧ resolveStep (handleClarify (handleClarify c0 false in1).1 false in2).1
        c0.nextId out1
        = (handleClarify (handleClarify c0 false in1).1 false in2).1
    ∧ resolveStep
        (resolveStep (handleClarify (handleClarify c0 false in1).1 false in2).1
          (c0.nextId + 1) out2)
        c0.nextId out1
        = resolveStep (handleClarify (handleClarify c0 false in1).1 false in2).1
            (c0.nextId + 1) out2
    ∧ (resolveStep
        (resolveStep (handleClarify (handleClarify c0 false in1).1 false in2).1
          c0.nextId out1)
        (c0.nextId + 1) out2).req
        = requestReducer (requestReducer (requestReducer c0.req .start) .start)
            (fetchAction out2) := by
  have he1 : ((jsTrim in1).isEmpty : Bool) = false := by
    simpa [List.isEmpty_iff] using h1
  have he2 : ((jsTrim in2).isEmpty : Bool) = false := by
    simpa [List.isEmpty_iff] using h2
  have hc1 : handleClarify c0 false in1
      = (⟨requestReducer c0.req .start, some c0.nextId, c0.nextId + 1⟩,
         some (c0.nextId, jsTrim in1)) := by
    simp [handleClarify, he1]
  have hc2 : handleClarify (handleClarify c0 false in1).1 false in2
      = (⟨requestReducer (requestReducer c0.req .start) .start,
          some (c0.nextId + 1), c0.nextId + 2⟩,
         some (c0.nextId + 1, jsTrim in2)) := by
    rw [hc1]
    simp [handleClarify, he2]
  have hne : (some (c0.nextId + 1) : Option Nat) ≠ some c0.nextId := by
    simp
  refine ⟨by rw [hc1], by rw [hc2], ?_, ?_, ?_⟩
  · rw [hc2]
    simp [resolveStep]
  · rw [hc2]
    simp [resolveStep]
  · rw [hc2]
    simp [resolveStep]

theorem rapid_double_submit_witness :
    (resolveStep
      (resolveStep
        (handleClarify
          (handleClarify ⟨initialRequestState, none, 0⟩ false "first request".data).1
          false "second request".data).1
        0 (.ok "first result".data))
      (0 + 1) (.ok "second result".data)).req
    = requestReducer (requestReducer (requestReducer initialRequestState .start) .start)
        (fetchAction (.ok "second result".data)) :=
  (rapid_double_submit ⟨initialRequestState, none, 0⟩ "first request".data
    "second request".data (.ok "first result".data) (.ok "second result".data)
    (by decide) (by decide)).2.2.2.2

end ClarityAI
